import Mathlib

/-
Verification of the pasteboard access layer of the cacao repository
(src/pasteboard/mod.rs): a Rust wrapper around the system pasteboard
(NSPasteboard).  The layer's own logic (the `Pasteboard` methods) is
embedded from the source; the server-side pasteboard semantics, the
`types` module (`PasteboardType`) and the `Error` struct live outside
the provided sources and are modelled from the specification.
-/

namespace Cacao

/-- Modelled from the spec: the closed `PasteboardType` enumeration from the
`types` module (not under the provided sources), mapping logical content kinds
to canonical service type-identifier strings (sections 3, 4.4, 6). -/
inductive PasteboardType
  | String
  | URL
  | FileURL
  | HTML
  | PDF
  | PNG
  | RTF
  | TIFF
  deriving DecidableEq, Repr

/-- Modelled from the spec: the TypeRegistry, a pure static mapping
`PasteboardType -> type identifier string`; the plain-string kind maps to
"public.utf8-plain-text" (spec glossary). -/
def typeIdentifier : PasteboardType → String
  | .String => "public.utf8-plain-text"
  | .URL => "public.url"
  | .FileURL => "public.file-url"
  | .HTML => "public.html"
  | .PDF => "com.adobe.pdf"
  | .PNG => "public.png"
  | .RTF => "public.rtf"
  | .TIFF => "public.tiff"

/-- The `crate::error::Error` struct as used at src/pasteboard/mod.rs lines
129-133 (its defining module is not under the provided sources): a numeric
code, a domain string, and a description string. -/
structure Error where
  code : Nat
  domain : String
  description : String
  deriving DecidableEq, Repr

/-- Modelled from the spec: the state of one server-side pasteboard store.
`typedStrings` holds the per-type-identifier string values written with
setString:forType: (newest entry first, first match wins); `urlObjects` is
the object list written with writeObjects: (URL absolute strings, in server
order); `serverFault` is the fault-injection knob of spec section 8 making the
retrieval call return the null sentinel. -/
structure PasteboardState where
  typedStrings : List (String × String)
  urlObjects : List String
  serverFault : Bool
  deriving DecidableEq, Repr

/-- Modelled from the spec: first-match association lookup on the typed
string slots. -/
def lookupType : List (String × String) → String → Option String
  | [], _ => none
  | (k, v) :: rest, ty => if k = ty then some v else lookupType rest ty

/-- Modelled from the spec: the server call setString:forType: replaces the
pasteboard's current value for that type (section 4.2). -/
def setStringForType (st : PasteboardState) (value ty : String) : PasteboardState :=
  ⟨(ty, value) :: st.typedStrings, st.urlObjects, st.serverFault⟩

/-- Modelled from the spec: the server call writeObjects: writes the given
object list to the pasteboard, replacing prior content (section 4.2). -/
def writeObjects (st : PasteboardState) (urls : List String) : PasteboardState :=
  ⟨[], urls, st.serverFault⟩

/-- Modelled from the spec: the server call clearContents empties all
types and values currently held by the pasteboard (section 4.2). -/
def clearContents (st : PasteboardState) : PasteboardState :=
  ⟨[], [], st.serverFault⟩

/-- Modelled from the spec: the server call releaseGlobally affects server
resource reclamation, not content visibility (section 4.2). -/
def releaseGlobally (st : PasteboardState) : PasteboardState :=
  st

/-- Modelled from the spec: classification of a stored URL object as a
file-URL payload, the one registered URL type identifier this layer
presently understands (spec section 4.3): the URL string begins with the
file scheme "file://". -/
def isFileURL (u : String) : Bool :=
  u.data.take ("file://".data.length) == "file://".data

/-- Modelled from the spec: the server call readObjectsForClasses:options:
with the URL class; it reports the pasteboard's current object list in
server order, restricted to the registered type identifiers this layer
understands (presently: file URL payloads only, spec section 4.3), or the
null sentinel on a server fault (sections 4.3, 8). -/
def readObjectsForClassesURL (st : PasteboardState) : Option (List String) :=
  if st.serverFault then none else some (st.urlObjects.filter isFileURL)

/-- Modelled from the spec: the server call stringForType:, the string-type
read path (spec section 8, round-trip property). -/
def stringForType (st : PasteboardState) (ty : String) : Option String :=
  lookupType st.typedStrings ty

/-- Rust method Pasteboard::copy_text (src/pasteboard/mod.rs lines 61-68):
sends setString:forType: with the text and the String pasteboard type. -/
def copy_text (st : PasteboardState) (text : String) : PasteboardState :=
  setStringForType st text (typeIdentifier PasteboardType.String)

/-- Rust method Pasteboard::copy_clipboard (src/pasteboard/mod.rs lines
71-78): sends setString:forType: with the target and the given type. -/
def copy_clipboard (st : PasteboardState) (target : String) (copy_type : PasteboardType) :
    PasteboardState :=
  setStringForType st target (typeIdentifier copy_type)

/-- Rust method Pasteboard::copy_files (src/pasteboard/mod.rs lines 81-95):
maps each path to the string "file://" concatenated with the path, builds the
URL array in order, and sends writeObjects:. -/
def copy_files (st : PasteboardState) (file_urls : List String) : PasteboardState :=
  writeObjects st (file_urls.map (fun url => "file://" ++ url))

/-- Rust method Pasteboard::clear_contents (src/pasteboard/mod.rs lines
106-110): sends clearContents. -/
def clear_contents (st : PasteboardState) : PasteboardState :=
  clearContents st

/-- Rust method Pasteboard::release_globally (src/pasteboard/mod.rs lines
99-103): sends releaseGlobally. -/
def release_globally (st : PasteboardState) : PasteboardState :=
  releaseGlobally st

/-- Rust method Pasteboard::get_file_urls (src/pasteboard/mod.rs lines
117-140): sends readObjectsForClasses:options: for the URL class; if the
result is nil it returns the error with code 666, domain
"com.cacao-rs.pasteboard" and description "Pasteboard server returned no
data.", otherwise Ok with the retrieved sequence. -/
def get_file_urls (st : PasteboardState) : Except Error (List String) :=
  match readObjectsForClassesURL st with
  | none =>
      Except.error ⟨666, "com.cacao-rs.pasteboard", "Pasteboard server returned no data."⟩
  | some contents => Except.ok contents

/-- Concatenating "file://" in front of any path yields a file-URL payload. -/
theorem isFileURL_append (p : String) : isFileURL ("file://" ++ p) = true := by
  have h : ("file://" ++ p).data = "file://".data ++ p.data := rfl
  simp only [isFileURL, h, List.take_left, beq_self_eq_true]

/-- Every file-URL payload is "file://" concatenated with some path. -/
theorem isFileURL_split (u : String) (h : isFileURL u = true) :
    ∃ p, u = "file://" ++ p := by
  refine ⟨String.mk (u.data.drop ("file://".data.length)), ?_⟩
  have ht : u.data.take ("file://".data.length) = "file://".data := by
    simpa [isFileURL] using h
  have hu : u.data = "file://".data ++ u.data.drop ("file://".data.length) := by
    conv_lhs => rw [← List.take_append_drop ("file://".data.length) u.data, ht]
  calc u = String.mk u.data := rfl
    _ = "file://" ++ String.mk (u.data.drop ("file://".data.length)) := by
        conv_lhs => rw [hu]
        rfl

/-- The Rust struct Pasteboard (src/pasteboard/mod.rs line 31): a handle
wrapping a shared reference-counted pointer to a server-side pasteboard
object, here represented by an opaque numeric reference. -/
structure Pasteboard where
  ref : Nat
  deriving DecidableEq, Repr

/-- The pasteboard server's stores, one per pasteboard reference. -/
def World : Type :=
  Nat → PasteboardState

/-- Application of a server operation to the single store a handle points at;
all other stores are untouched. -/
def updateWorld (w : World) (r : Nat) (f : PasteboardState → PasteboardState) : World :=
  fun x => if x = r then f (w x) else w x

/-- Handle-level copy_text: the method takes the handle by shared reference
(&self) and messages the wrapped pasteboard object, returning the handle
unchanged. -/
def copy_textH (pb : Pasteboard) (w : World) (text : String) : Pasteboard × World :=
  (pb, updateWorld w pb.ref (fun st => copy_text st text))

/-- Handle-level copy_clipboard, by shared reference on the handle. -/
def copy_clipboardH (pb : Pasteboard) (w : World) (target : String) (ty : PasteboardType) :
    Pasteboard × World :=
  (pb, updateWorld w pb.ref (fun st => copy_clipboard st target ty))

/-- Handle-level copy_files, by shared reference on the handle. -/
def copy_filesH (pb : Pasteboard) (w : World) (paths : List String) : Pasteboard × World :=
  (pb, updateWorld w pb.ref (fun st => copy_files st paths))

/-- Handle-level clear_contents, by shared reference on the handle. -/
def clear_contentsH (pb : Pasteboard) (w : World) : Pasteboard × World :=
  (pb, updateWorld w pb.ref clear_contents)

/-- Handle-level release_globally, by shared reference on the handle. -/
def release_globallyH (pb : Pasteboard) (w : World) : Pasteboard × World :=
  (pb, updateWorld w pb.ref release_globally)

/-- Handle-level get_file_urls: a read; it messages the wrapped pasteboard
object and leaves every store unchanged, returning the handle and the result. -/
def get_file_urlsH (pb : Pasteboard) (w : World) : Pasteboard × Except Error (List String) :=
  (pb, get_file_urls (w pb.ref))

/-- C1: get_file_urls fails with the PasteboardServerError (the fixed code
666, domain and message) exactly when the underlying retrieval call returns
the null sentinel; for every non-null result, including the empty object
list, it returns Ok with the retrieved sequence (and, being a total
function, never panics). -/
theorem get_file_urls_error_iff_nil (st : PasteboardState) :
    (get_file_urls st =
        Except.error ⟨666, "com.cacao-rs.pasteboard", "Pasteboard server returned no data."⟩ ↔
      readObjectsForClassesURL st = none) ∧
    ∀ contents, readObjectsForClassesURL st = some contents →
      get_file_urls st = Except.ok contents := by
  refine ⟨⟨?_, ?_⟩, ?_⟩
  · intro h
    cases hr : readObjectsForClassesURL st with
    | none => rfl
    | some l => simp [get_file_urls, hr] at h
  · intro h
    simp [get_file_urls, h]
  · intro contents h
    simp [get_file_urls, h]

/-- Witness for C1 at a fault-free empty pasteboard: the non-null empty
result yields Ok with the empty sequence. -/
theorem get_file_urls_error_iff_nil_witness :
    get_file_urls ⟨[], [], false⟩ = Except.ok [] :=
  (get_file_urls_error_iff_nil ⟨[], [], false⟩).2 [] rfl

/-- C2: for every pasteboard state, a successful get_file_urls returns only
URL objects of the file-URL kind this layer understands (file URL payloads
only, no other URL kinds), as an ordered sequence preserving the
server-reported order: the result is exactly the order-preserving
restriction of the server-reported object sequence to file-URL payloads,
every returned element has the file-URL form, and the result is a sublist
of the server-reported sequence. -/
theorem get_file_urls_filters_file_urls (st : PasteboardState)
    (hf : st.serverFault = false) :
    get_file_urls st = Except.ok (st.urlObjects.filter isFileURL) ∧
    (∀ u ∈ st.urlObjects.filter isFileURL, ∃ p, u = "file://" ++ p) ∧
    List.Sublist (st.urlObjects.filter isFileURL) st.urlObjects := by
  refine ⟨?_, ?_, List.filter_sublist st.urlObjects⟩
  · simp [get_file_urls, readObjectsForClassesURL, hf]
  · intro u hu
    exact isFileURL_split u (List.mem_filter.mp hu).2

/-- Witness for C2 at a fault-free state holding one non-file URL and one
file URL: the read keeps only the file URL. -/
theorem get_file_urls_filters_file_urls_witness :
    get_file_urls ⟨[], ["https://example.com", "file:///tmp/a.txt"], false⟩ =
      Except.ok ["file:///tmp/a.txt"] := by
  have h := get_file_urls_filters_file_urls
    ⟨[], ["https://example.com", "file:///tmp/a.txt"], false⟩ rfl
  exact h.1.trans (by rfl)

/-- C3: copy_files writes the list whose i-th element is the exact string
"file://" concatenated with the i-th input path, in input order, and a
subsequent fault-free get_file_urls returns exactly that list. -/
theorem copy_files_writes_prefixed_urls (st : PasteboardState) (paths : List String)
    (h : st.serverFault = false) :
    (copy_files st paths).urlObjects = paths.map (fun p => "file://" ++ p) ∧
    (∀ i : Nat, (copy_files st paths).urlObjects.get? i =
      (paths.get? i).map (fun p => "file://" ++ p)) ∧
    get_file_urls (copy_files st paths) = Except.ok (paths.map (fun p => "file://" ++ p)) := by
  refine ⟨rfl, ?_, ?_⟩
  · intro i
    simp [copy_files, writeObjects]
  · have hall : ∀ u ∈ paths.map (fun p => "file://" ++ p), isFileURL u = true := by
      intro u hu
      obtain ⟨p, _, rfl⟩ := List.mem_map.mp hu
      exact isFileURL_append p
    simp [get_file_urls, readObjectsForClassesURL, copy_files, writeObjects, h,
      List.filter_eq_self.mpr hall]

/-- Witness for C3: the spec's concrete round trip. -/
theorem copy_files_writes_prefixed_urls_witness :
    get_file_urls (copy_files ⟨[], [], false⟩ ["/tmp/a.txt", "/tmp/b.txt"]) =
      Except.ok ["file:///tmp/a.txt", "file:///tmp/b.txt"] :=
  (copy_files_writes_prefixed_urls ⟨[], [], false⟩ ["/tmp/a.txt", "/tmp/b.txt"] rfl).2.2

/-- C4: copy_files replaces the pasteboard's prior content entirely: the
resulting state holds exactly the newly written file-URL list, no typed
string values, and nothing of what was stored before. -/
theorem copy_files_replaces_prior_content (st : PasteboardState) (paths : List String) :
    copy_files st paths = ⟨[], paths.map (fun p => "file://" ++ p), st.serverFault⟩ :=
  rfl

/-- C5: copy_files on the empty path sequence writes an empty object list,
and a subsequent fault-free get_file_urls returns Ok with the empty
sequence, not an error. -/
theorem copy_files_empty_input (st : PasteboardState) (h : st.serverFault = false) :
    (copy_files st []).urlObjects = [] ∧
    get_file_urls (copy_files st []) = Except.ok [] :=
  ⟨rfl, by simp [get_file_urls, readObjectsForClassesURL, copy_files, writeObjects, h]⟩

/-- Witness for C5 at a nonempty fault-free pasteboard. -/
theorem copy_files_empty_input_witness :
    (copy_files ⟨[("public.utf8-plain-text", "hello")], ["file:///x"], false⟩ []).urlObjects
        = [] ∧
    get_file_urls (copy_files ⟨[("public.utf8-plain-text", "hello")], ["file:///x"], false⟩ [])
        = Except.ok [] :=
  copy_files_empty_input ⟨[("public.utf8-plain-text", "hello")], ["file:///x"], false⟩ rfl

/-- C6: copy_text text is behaviorally equal to copy_clipboard text
PasteboardType.String: both perform the same setString:forType: write of the
same string under the plain-string type identifier, with identical effect on
the pasteboard state. -/
theorem copy_text_eq_copy_clipboard_string (st : PasteboardState) (text : String) :
    copy_text st text = copy_clipboard st text PasteboardType.String :=
  rfl

/-- C7: clear_contents is idempotent: clearing twice gives the same empty
state as clearing once, the cleared state is empty, and a fault-free
get_file_urls after clearing returns Ok with the empty sequence. -/
theorem clear_contents_idempotent (st : PasteboardState) (h : st.serverFault = false) :
    clear_contents (clear_contents st) = clear_contents st ∧
    clear_contents st = ⟨[], [], st.serverFault⟩ ∧
    get_file_urls (clear_contents st) = Except.ok [] := by
  refine ⟨rfl, rfl, ?_⟩
  simp [get_file_urls, readObjectsForClassesURL, clear_contents, clearContents, h]

/-- Witness for C7 at a nonempty fault-free pasteboard. -/
theorem clear_contents_idempotent_witness :
    clear_contents (clear_contents ⟨[("public.utf8-plain-text", "v")], ["file:///x"], false⟩)
        = clear_contents ⟨[("public.utf8-plain-text", "v")], ["file:///x"], false⟩ ∧
    get_file_urls (clear_contents ⟨[("public.utf8-plain-text", "v")], ["file:///x"], false⟩)
        = Except.ok [] := by
  have h := clear_contents_idempotent ⟨[("public.utf8-plain-text", "v")], ["file:///x"], false⟩ rfl
  exact ⟨h.1, h.2.2⟩

/-- C8: for every string, including the empty string and strings with
multi-byte characters, writing it with copy_text and reading it back through
the string-type path yields exactly that string. -/
theorem copy_text_round_trip (st : PasteboardState) (t : String) :
    stringForType (copy_text st t) (typeIdentifier PasteboardType.String) = some t := by
  simp [stringForType, copy_text, setStringForType, lookupType]

/-- C9: every operation takes the handle by shared reference and leaves the
handle's wrapped pasteboard reference unchanged; only the server-side store
the handle points at mutates, and every other pasteboard store is untouched. -/
theorem operations_leave_handle_unchanged (pb : Pasteboard) (w : World)
    (text target : String) (ty : PasteboardType) (paths : List String) :
    (copy_textH pb w text).1 = pb ∧
    (copy_clipboardH pb w target ty).1 = pb ∧
    (copy_filesH pb w paths).1 = pb ∧
    (clear_contentsH pb w).1 = pb ∧
    (release_globallyH pb w).1 = pb ∧
    (get_file_urlsH pb w).1 = pb ∧
    ∀ r, r ≠ pb.ref →
      (copy_textH pb w text).2 r = w r ∧
      (copy_clipboardH pb w target ty).2 r = w r ∧
      (copy_filesH pb w paths).2 r = w r ∧
      (clear_contentsH pb w).2 r = w r ∧
      (release_globallyH pb w).2 r = w r := by
  refine ⟨rfl, rfl, rfl, rfl, rfl, rfl, ?_⟩
  intro r hr
  simp [copy_textH, copy_clipboardH, copy_filesH, clear_contentsH, release_globallyH,
    updateWorld, hr]

/-- Witness for C9: a concrete handle, world and foreign store reference. -/
theorem operations_leave_handle_unchanged_witness :
    (copy_textH ⟨0⟩ (fun _ => ⟨[], [], false⟩) "hi").1 = ⟨0⟩ ∧
    (copy_textH ⟨0⟩ (fun _ => ⟨[], [], false⟩) "hi").2 1 = ⟨[], [], false⟩ := by
  have h := operations_leave_handle_unchanged ⟨0⟩ (fun _ => ⟨[], [], false⟩) "hi" "hi"
    PasteboardType.String []
  exact ⟨h.1, (h.2.2.2.2.2.2 1 (by decide)).1⟩

/-- C10: whenever get_file_urls fails, the returned error carries exactly
code 666, domain "com.cacao-rs.pasteboard" and description "Pasteboard
server returned no data.", independent of the pasteboard state. -/
theorem get_file_urls_error_fields (st : PasteboardState) (e : Error)
    (h : get_file_urls st = Except.error e) :
    e.code = 666 ∧ e.domain = "com.cacao-rs.pasteboard" ∧
    e.description = "Pasteboard server returned no data." := by
  by_cases hf : st.serverFault
  · have heq : get_file_urls st =
        Except.error ⟨666, "com.cacao-rs.pasteboard", "Pasteboard server returned no data."⟩ := by
      simp [get_file_urls, readObjectsForClassesURL, hf]
    rw [heq] at h
    injection h with h
    rw [← h]
    exact ⟨rfl, rfl, rfl⟩
  · have heq : get_file_urls st = Except.ok (st.urlObjects.filter isFileURL) := by
      simp [get_file_urls, readObjectsForClassesURL, hf]
    rw [heq] at h
    exact absurd h (by simp)

/-- Witness for C10 at a fault-injected state. -/
theorem get_file_urls_error_fields_witness :
    (⟨666, "com.cacao-rs.pasteboard", "Pasteboard server returned no data."⟩ : Error).code
        = 666 ∧
    (⟨666, "com.cacao-rs.pasteboard", "Pasteboard server returned no data."⟩ : Error).domain
        = "com.cacao-rs.pasteboard" ∧
    (⟨666, "com.cacao-rs.pasteboard", "Pasteboard server returned no data."⟩ : Error).description
        = "Pasteboard server returned no data." :=
  get_file_urls_error_fields ⟨[], [], true⟩
    ⟨666, "com.cacao-rs.pasteboard", "Pasteboard server returned no data."⟩ rfl

end Cacao
